import Mathlib

/-!
Verification of the CrewAIFriday chatbot repository.

This file gives a shallow embedding of the repository's original logic:
  * `login.py` — role-based app filtering (`accessible_apps`) and the
    navigation `pages` mapping;
  * `pages/home.py` (Gemini-backed page) — modelled as a trace-producing
    script `homeScript` over an input record of oracle outcomes for the
    external calls;
  * `pages/home1.py` (OpenAI-backed page) — the script `home1Script`, and the
    pure prompt-assembly pipeline (`contextParts`, `context_text`,
    `task_description`) translated string-operation by string-operation
    from the Python source.

Python string primitives (`str.replace` for a one-character pattern,
`str.strip`, slicing, `str.rsplit(" ", 1)[0]`) are modelled on `List Char`,
matching Python's character-based semantics.
-/

namespace Chatbot

/-! ## config/conf.py : the APPS list -/

/-- One entry of `conf.APPS`: a dict with name, description, page file and
the list of roles allowed to access it. -/
structure App where
  name : String
  description : String
  page : String
  access_privilege_role : List String
deriving DecidableEq, Repr

/-- `conf.APPS` from `config/conf.py`. -/
def APPS : List App :=
  [ { name := "Personal ChatBot", description := "Personal ChatBot",
      page := "home.py", access_privilege_role := ["user"] },
    { name := "Personal ChatBot", description := "Personal ChatBot",
      page := "home.py", access_privilege_role := ["admin"] } ]

/-! ## login.py : accessible_apps and the navigation pages -/

/-- `login.py` lines 58–66: with a non-`None` role list, an admin gets the
whole app list; otherwise an app is kept when the set intersection of the
user roles with the app's `access_privilege_role` is non-empty. -/
def accessible_apps (user_role : List String) (apps : List App) : List App :=
  if "admin" ∈ user_role then apps
  else apps.filter (fun app =>
    decide (0 < (user_role.inter app.access_privilege_role).length))

/-- `login.py` lines 75–83: the navigation mapping passed to
`st.navigation`.  The only group is "🏠︎ Home" holding the single page
`home1.py`; the `get_streamlit_pages()` group built from `accessible_apps`
is commented out in the source.  We record the page files reachable from
the navigation. -/
def navPages : List String := ["home1.py"]

/-! ## Trace model of the two Streamlit page scripts

Each page script is modelled as a function from an input record — the
uploaded file, the environment, and one oracle per external call recording
whether that call raises — to the list of observable events it performs, in
order, together with the way the script exits (`Outcome`) and, for the
Gemini page, the session flag it leaves behind.  `st.stop()` raises
Streamlit's control exception, so a `finally` block still runs on that
path; `Outcome.raised` marks an exception that the script itself never
catches. -/

/-- Observable events of a page script run. -/
inductive Ev where
  | errorMsg (msg : String)     -- st.error
  | warnMsg (msg : String)      -- st.warning
  | infoMsg (msg : String)      -- st.info
  | stop                        -- st.stop
  | fileWrite (path : String)   -- writing the upload to the temp path
  | embedInit                   -- embedding-model constructor
  | llmInit                     -- chat-LLM constructor (home.py)
  | pdfLoad (path : String)     -- PyPDFLoader(...).load() (home1.py)
  | splitDocs                   -- text splitter over the loaded pages
  | faissBuild                  -- FAISS.from_documents (home1.py)
  | ragToolInit                 -- RagTool constructor
  | ragAdd (path : String)      -- rag_tool.add (home.py)
  | setInitFlag                 -- st.session_state.vector_db_initialized = True
  | retrieve (query : String)   -- retriever / similarity search (home1.py)
  | agentRun                    -- crew.kickoff()
  | removeAttempt (path : String) -- os.remove called on the temp path
  | removed (path : String)     -- os.remove returned without raising
deriving DecidableEq, Repr

/-- How a script run exits. -/
inductive Outcome where
  | normal   -- script body ran to its end
  | stopped  -- st.stop() (Streamlit control exception)
  | raised   -- an exception the script never catches
deriving DecidableEq, Repr

/-- Outcome of the Gemini page's embeddings/LLM constructor block, which is
guarded by `except DefaultCredentialsError` only. -/
inductive InitExc where
  | ok      -- constructors return normally
  | creds   -- DefaultCredentialsError
  | other   -- any other exception type
deriving DecidableEq, Repr

/-- Python truthiness of an `os.getenv` / `st.chat_input` result:
`None` and the empty string are falsy. -/
def pyTruthy : Option String → Bool
  | none => false
  | some s => s != ""

/-- Events that stand for an attempted call out of the script (file
processing, model initialization, index build, retrieval, agent execution,
file removal) as opposed to rendering a message or halting. -/
def Ev.isCall : Ev → Bool
  | errorMsg _ => false
  | warnMsg _ => false
  | infoMsg _ => false
  | stop => false
  | setInitFlag => false
  | _ => true

/-- `home.py` line 17. -/
def gemKeyMissingMsg : String :=
  "GEMINI_API_KEY not set. Add it to your .env (GEMINI_API_KEY=...) or environment and restart."

/-- `home.py` lines 43–47. -/
def adcMsg : String :=
  "Google Application Default Credentials not found. Set GOOGLE_APPLICATION_CREDENTIALS to a service account JSON file or follow: https://cloud.google.com/docs/authentication/external/set-up-adc"

/-- `home.py` line 65 (the interpolated exception text is left out). -/
def ragInitFailedMsg : String := "Failed to initialize RAG tool: "

/-- `home.py` line 74. -/
def loadPdfErrMsg : String := "Error loading PDF: "

/-- `home.py` line 114. -/
def questionErrMsg : String := "Error processing your question: "

/-- `home.py` line 123 and `home1.py` line 185. -/
def uploadPromptMsg : String := "Please upload a PDF file to start the conversation."

/-- `home.py` line 24: the temp path for an upload. -/
def homeTempPath (name : String) : String := "temp_" ++ name

/-- Input to one run (rerun) of `home.py`. -/
structure HomeInput where
  apiKey : Option String       -- os.getenv("GEMINI_API_KEY")
  uploadedName : Option String -- uploaded_file and its .name (None: no upload)
  initErr : InitExc            -- embeddings/LLM constructor block outcome
  ragInitError : Bool          -- RagTool(...) raises
  ragAddError : Bool           -- rag_tool.add raises
  flagIn : Option Bool         -- session_state.vector_db_initialized at entry
  userInput : Option String    -- st.chat_input result
  crewError : Bool             -- Task/Crew/kickoff block raises
  tempExists : Bool            -- os.path.exists(temp_path) in the finally block
  removeError : Bool           -- os.remove raises
deriving Repr

/-- Result of one run: event trace, exit mode, session flag left behind. -/
structure HomeResult where
  trace : List Ev
  outcome : Outcome
  flagOut : Option Bool
deriving Repr

/-- `home.py` lines 115–121 and `home1.py` lines 177–183: the `finally`
block.  If the temp path exists, `os.remove` is attempted and an exception
from it is swallowed by `except Exception: pass`. -/
def cleanupEvents (tempExists removeError : Bool) (path : String) : List Ev :=
  if tempExists then
    if removeError then [Ev.removeAttempt path]
    else [Ev.removeAttempt path, Ev.removed path]
  else []

/-- `home.py` lines 94–114: chat input and the guarded Task/Crew/kickoff.
An exception there is caught and shown with `st.error`; the script then
falls through normally. -/
def homeChat (inp : HomeInput) (t : List Ev) (flag : Option Bool) :
    List Ev × Outcome × Option Bool :=
  if pyTruthy inp.userInput then
    if inp.crewError then
      (t ++ [Ev.agentRun, Ev.errorMsg questionErrMsg], Outcome.normal, flag)
    else
      (t ++ [Ev.agentRun], Outcome.normal, flag)
  else (t, Outcome.normal, flag)

/-- `home.py` lines 25–114: the body of the `try`, given an upload. -/
def homeBody (inp : HomeInput) (path : String) :
    List Ev × Outcome × Option Bool :=
  let t0 : List Ev := [Ev.fileWrite path]
  match inp.initErr with
  | InitExc.other =>
      -- lines 32–41 guarded only by `except DefaultCredentialsError`:
      -- any other exception type propagates out of the body
      (t0 ++ [Ev.embedInit], Outcome.raised, inp.flagIn)
  | InitExc.creds =>
      (t0 ++ [Ev.embedInit, Ev.errorMsg adcMsg, Ev.stop], Outcome.stopped, inp.flagIn)
  | InitExc.ok =>
    let t1 := t0 ++ [Ev.embedInit, Ev.llmInit]
    -- lines 51–52: default the session flag to False when absent
    let flag := inp.flagIn.getD false
    -- lines 59–66: RagTool init, `except Exception` → error + stop
    if inp.ragInitError then
      (t1 ++ [Ev.ragToolInit, Ev.errorMsg ragInitFailedMsg, Ev.stop],
       Outcome.stopped, some flag)
    else
      let t2 := t1 ++ [Ev.ragToolInit]
      -- lines 68–75: add the PDF only when the flag is False
      if flag then
        homeChat inp t2 (some true)
      else if inp.ragAddError then
        (t2 ++ [Ev.ragAdd path, Ev.errorMsg loadPdfErrMsg, Ev.stop],
         Outcome.stopped, some false)
      else
        homeChat inp (t2 ++ [Ev.ragAdd path, Ev.setInitFlag]) (some true)

/-- One run of `home.py`. -/
def homeScript (inp : HomeInput) : HomeResult :=
  -- lines 16–18: halt when the key is unset or empty
  if !(pyTruthy inp.apiKey) then
    ⟨[Ev.errorMsg gemKeyMissingMsg, Ev.stop], Outcome.stopped, inp.flagIn⟩
  else
    match inp.uploadedName with
    | none => ⟨[Ev.infoMsg uploadPromptMsg], Outcome.normal, inp.flagIn⟩
    | some name =>
      let path := homeTempPath name
      let r := homeBody inp path
      ⟨r.1 ++ cleanupEvents inp.tempExists inp.removeError path, r.2.1, r.2.2⟩

/-! ### home1.py (OpenAI-backed page) -/

/-- `home1.py` line 22. -/
def openaiKeyMissingMsg : String :=
  "OpenAI API key not found. Please add OPENAI_API_KEY to your .env file."

/-- `home1.py` line 70 (exception text left out). -/
def embedInitFailedMsg : String := "Failed to initialize OpenAI embeddings: "

/-- `home1.py` line 80. -/
def faissFailedMsg : String := "Failed to build vector store: "

/-- `home1.py` line 97. -/
def ragToolWarnMsg : String := "RagTool init failed (will still use retriever): "

/-- `home1.py` line 175. -/
def question1ErrMsg : String := "Error processing question: "

/-- `home1.py` line 37: `os.path.join(tempfile.gettempdir(), f"temp_{name}")`. -/
def home1TempPath (tempDir name : String) : String :=
  tempDir ++ "/temp_" ++ name

/-- Input to one run of `home1.py`. -/
structure Home1Input where
  apiKey : Option String       -- os.getenv("OPENAI_API_KEY")
  uploadedName : Option String -- uploaded_file and its .name
  tempDir : String             -- tempfile.gettempdir()
  pdfLoadError : Bool          -- PyPDFLoader(...).load() raises (unguarded)
  embedError : Bool            -- OpenAIEmbeddings(...) raises
  faissError : Bool            -- FAISS.from_documents raises
  ragInitError : Bool          -- RagTool(...) raises (warning only)
  userInput : Option String    -- st.chat_input result
  retrieveError : Bool         -- the retrieval call raises
  crewError : Bool             -- Task/Crew/kickoff raises
  tempExists : Bool            -- os.path.exists(temp_path) in the finally block
  removeError : Bool           -- os.remove raises
deriving Repr

/-- Result of one `home1.py` run. -/
structure Home1Result where
  trace : List Ev
  outcome : Outcome
deriving Repr

/-- `home1.py` lines 120–175: chat input and the single `try` around
retrieval, prompt assembly and agent execution; any exception inside is
caught at line 174 and shown with `st.error`, after which the script falls
through normally.  The compatibility branches at lines 129–138 all perform
the same external retrieval and are modelled as the one `retrieve` call. -/
def home1Chat (inp : Home1Input) (t : List Ev) : List Ev × Outcome :=
  if pyTruthy inp.userInput then
    let q := inp.userInput.getD ""
    if inp.retrieveError then
      (t ++ [Ev.retrieve q, Ev.errorMsg question1ErrMsg], Outcome.normal)
    else if inp.crewError then
      (t ++ [Ev.retrieve q, Ev.agentRun, Ev.errorMsg question1ErrMsg], Outcome.normal)
    else
      (t ++ [Ev.retrieve q, Ev.agentRun], Outcome.normal)
  else (t, Outcome.normal)

/-- `home1.py` lines 39–175: the body of the `try`, given an upload. -/
def home1Body (inp : Home1Input) (path : String) : List Ev × Outcome :=
  -- lines 42–43: write the upload
  let t0 : List Ev := [Ev.fileWrite path]
  -- lines 50–62: PDF loading and chunking, not wrapped in any inner try
  if inp.pdfLoadError then (t0 ++ [Ev.pdfLoad path], Outcome.raised)
  else
    let t1 := t0 ++ [Ev.pdfLoad path, Ev.splitDocs]
    -- lines 65–71: embeddings init, `except Exception` → error + stop
    if inp.embedError then
      (t1 ++ [Ev.embedInit, Ev.errorMsg embedInitFailedMsg, Ev.stop], Outcome.stopped)
    else
      -- lines 74–81: FAISS build, `except Exception` → error + stop
      if inp.faissError then
        (t1 ++ [Ev.embedInit, Ev.faissBuild, Ev.errorMsg faissFailedMsg, Ev.stop],
         Outcome.stopped)
      else
        let t2 := t1 ++ [Ev.embedInit, Ev.faissBuild]
        -- lines 90–98: RagTool init, failure is only a warning
        if inp.ragInitError then
          home1Chat inp (t2 ++ [Ev.ragToolInit, Ev.warnMsg ragToolWarnMsg])
        else
          home1Chat inp (t2 ++ [Ev.ragToolInit])

/-- One run of `home1.py`. -/
def home1Script (inp : Home1Input) : Home1Result :=
  -- lines 21–23: halt when the key is unset or empty
  if !(pyTruthy inp.apiKey) then
    ⟨[Ev.errorMsg openaiKeyMissingMsg, Ev.stop], Outcome.stopped⟩
  else
    match inp.uploadedName with
    | none => ⟨[Ev.infoMsg uploadPromptMsg], Outcome.normal⟩
    | some name =>
      let path := home1TempPath inp.tempDir name
      let r := home1Body inp path
      ⟨r.1 ++ cleanupEvents inp.tempExists inp.removeError path, r.2⟩

/-! ### home1.py prompt assembly (lines 128–161), as pure string functions

Python string operations are modelled on `List Char`, which matches
Python's character-based indexing and length. -/

/-- Python `s.replace("\n", " ")` for a one-character pattern. -/
def replaceNl (l : List Char) : List Char :=
  l.map (fun c => if c = '\n' then ' ' else c)

/-- Characters stripped by Python's `str.strip()` (the ASCII whitespace
cases; 11 and 12 are vertical tab and form feed). -/
def isPySpace (c : Char) : Bool :=
  c = ' ' || c = '\t' || c = '\n' || c = '\r' || c.toNat == 11 || c.toNat == 12

/-- Python `s.strip()`: drop whitespace from both ends. -/
def pyStrip (l : List Char) : List Char :=
  ((l.dropWhile isPySpace).reverse.dropWhile isPySpace).reverse

/-- The part of `l` strictly before its last space, when `l` has a space. -/
def beforeLastSpace? : List Char → Option (List Char)
  | [] => none
  | c :: cs =>
    match beforeLastSpace? cs with
    | some p => some (c :: p)
    | none => if c = ' ' then some [] else none

/-- Python `s.rsplit(" ", 1)[0]`: the part before the last space, or the
whole string when it has no space. -/
def rsplitHead (l : List Char) : List Char :=
  (beforeLastSpace? l).getD l

/-- A retrieved chunk: its text and the `page` / `source` metadata keys the
prompt assembler looks at (`None` = key absent). -/
structure Doc where
  page_content : String
  metaPage : Option String := none
  metaSource : Option String := none
deriving DecidableEq, Repr

/-- `home1.py` line 144: `d.metadata.get("page", d.metadata.get("source",
f"chunk-{i}"))`. -/
def srcLabel (d : Doc) (i : Nat) : String :=
  d.metaPage.getD (d.metaSource.getD ("chunk-" ++ toString i))

/-- `home1.py` lines 145–148: flatten newlines, strip, and cut a snippet
longer than 1000 characters back to before the last space of its first
1000 characters, appending an ellipsis. -/
def snippetOf (d : Doc) : String :=
  let clean := pyStrip (replaceNl d.page_content.data)
  if 1000 < clean.length then
    String.mk (rsplitHead (clean.take 1000)) ++ "…"
  else String.mk clean

/-- `home1.py` lines 142–149: one `[Source: …]\n<snippet>` part per
retrieved chunk, enumerated from 1 in retrieval-rank order. -/
def contextParts (top_docs : List Doc) : List String :=
  (top_docs.enumFrom 1).map
    (fun p => "[Source: " ++ srcLabel p.2 p.1 ++ "]\n" ++ snippetOf p.2)

/-- Python `"\n\n---\n\n".join(parts)`. -/
def joinParts : List String → String
  | [] => ""
  | [p] => p
  | p :: ps => p ++ "\n\n---\n\n" ++ joinParts ps

/-- `home1.py` line 153. -/
def noRelevantTextMsg : String := "No relevant text was found in the document."

/-- `home1.py` lines 151–153: join the parts, strip, and fall back to the
placeholder when the result is empty. -/
def context_text (top_docs : List Doc) : String :=
  let t : String := String.mk (pyStrip (joinParts (contextParts top_docs)).data)
  if t = "" then noRelevantTextMsg else t

/-- `home1.py` line 130: `retriever.get_relevant_documents(user_input)[:5]`. -/
def topDocs (retrieved : List Doc) : List Doc := retrieved.take 5

/-- `home1.py` lines 157–158. -/
def promptHeader : String :=
  "You are provided with context extracted from a PDF (below). Use ONLY this context to answer the question. If the answer is not contained in the context, say you don't know. Cite the source labels in your answer.\n\n"

/-- `home1.py` line 160. -/
def promptFooter : String :=
  "Answer concisely and include source citations like [Source: page_number] or [Source: chunk-1]."

/-- `home1.py` lines 156–161: the task description handed to the agent. -/
def task_description (top_docs : List Doc) (user_input : String) : String :=
  promptHeader ++ "CONTEXT:\n" ++ context_text top_docs ++
    "\n\nQUESTION:\n" ++ user_input ++ "\n\n" ++ promptFooter

/-! ### Event classifiers and concrete run inputs used in the theorems -/

/-- The embedding-model constructor event. -/
def isEmbedInit : Ev → Bool
  | Ev.embedInit => true
  | _ => false

/-- A `rag_tool.add` event. -/
def isRagAdd : Ev → Bool
  | Ev.ragAdd _ => true
  | _ => false

/-- A `crew.kickoff()` event. -/
def isAgentRun : Ev → Bool
  | Ev.agentRun => true
  | _ => false

/-- A retrieval event. -/
def isRetrieve : Ev → Bool
  | Ev.retrieve _ => true
  | _ => false

/-- A FAISS index-build event. -/
def isFaissBuild : Ev → Bool
  | Ev.faissBuild => true
  | _ => false

/-- A PDF-load event. -/
def isPdfLoad : Ev → Bool
  | Ev.pdfLoad _ => true
  | _ => false

/-- The session-flag assignment event of `home.py` line 72. -/
def isSetFlag : Ev → Bool
  | Ev.setInitFlag => true
  | _ => false

/-- A `home.py` session: thread the `vector_db_initialized` flag through a
sequence of reruns and concatenate their traces. -/
def runHomeSession : Option Bool → List HomeInput → List Ev
  | _, [] => []
  | flag, r :: rs =>
    let res := homeScript { r with flagIn := flag }
    res.trace ++ runHomeSession res.flagOut rs

/-- A `home.py` run with the key variable unset but a PDF uploaded and a
question asked. -/
def homeNoKeyInput : HomeInput :=
  { apiKey := none, uploadedName := some "doc.pdf", initErr := InitExc.ok,
    ragInitError := false, ragAddError := false, flagIn := none,
    userInput := some "q", crewError := false, tempExists := true,
    removeError := false }

/-- A `home1.py` run with the key variable set to the empty string but a
PDF uploaded and a question asked. -/
def home1EmptyKeyInput : Home1Input :=
  { apiKey := some "", uploadedName := some "doc.pdf", tempDir := "/tmp",
    pdfLoadError := false, embedError := false, faissError := false,
    ragInitError := false, userInput := some "q", retrieveError := false,
    crewError := false, tempExists := true, removeError := false }

/-- A `home.py` run whose processing block exits with an uncaught
exception (non-credentials error at the embeddings/LLM constructors),
with the temp file present and the delete itself failing. -/
def homeRaisedInput : HomeInput :=
  { apiKey := some "k", uploadedName := some "doc.pdf",
    initErr := InitExc.other, ragInitError := false, ragAddError := false,
    flagIn := none, userInput := some "q", crewError := false,
    tempExists := true, removeError := true }

/-- A `home1.py` run whose processing block exits with an uncaught
exception (PDF loading fails), with the temp file present and the delete
itself failing. -/
def home1RaisedInput : Home1Input :=
  { apiKey := some "k", uploadedName := some "doc.pdf", tempDir := "/tmp",
    pdfLoadError := true, embedError := false, faissError := false,
    ragInitError := false, userInput := some "q", retrieveError := false,
    crewError := false, tempExists := true, removeError := true }

/-- A `home.py` run in which the embeddings/LLM constructor block raises
an exception that is not a `DefaultCredentialsError`. -/
def homeUncaughtInput : HomeInput :=
  { apiKey := some "k", uploadedName := some "doc.pdf",
    initErr := InitExc.other, ragInitError := false, ragAddError := false,
    flagIn := none, userInput := none, crewError := false,
    tempExists := true, removeError := false }

/-- A `home.py` run that reaches every external call with every guarded
call failing nowhere, used to exercise caught-error conjuncts. -/
def homeAllErrInput : HomeInput :=
  { apiKey := some "k", uploadedName := some "doc.pdf",
    initErr := InitExc.ok, ragInitError := true, ragAddError := false,
    flagIn := none, userInput := some "q", crewError := false,
    tempExists := true, removeError := false }

/-- A `home1.py` run whose retrieval call fails. -/
def home1RetrieveErrInput : Home1Input :=
  { apiKey := some "k", uploadedName := some "doc.pdf", tempDir := "/tmp",
    pdfLoadError := false, embedError := false, faissError := false,
    ragInitError := true, userInput := some "q", retrieveError := true,
    crewError := false, tempExists := true, removeError := false }

/-- A retrieved chunk of 1201 characters (600 `a`s, a space, 600 `b`s),
long enough to trigger the snippet trimming. -/
def longDoc : Doc :=
  { page_content :=
      String.mk (List.replicate 600 'a' ++ ' ' :: List.replicate 600 'b') }

/-- A fully successful `home.py` run with an upload and a question. -/
def homeOkInput : HomeInput :=
  { apiKey := some "k", uploadedName := some "doc.pdf",
    initErr := InitExc.ok, ragInitError := false, ragAddError := false,
    flagIn := none, userInput := some "q", crewError := false,
    tempExists := true, removeError := false }

/-- A fully successful `home1.py` run with an upload and a question. -/
def home1OkInput : Home1Input :=
  { apiKey := some "k", uploadedName := some "doc.pdf", tempDir := "/tmp",
    pdfLoadError := false, embedError := false, faissError := false,
    ragInitError := false, userInput := some "q", retrieveError := false,
    crewError := false, tempExists := true, removeError := false }

/-- A `home.py` rerun entered with the session flag already `True`. -/
def homeFlagTrueInput : HomeInput :=
  { apiKey := some "k", uploadedName := some "doc.pdf",
    initErr := InitExc.ok, ragInitError := false, ragAddError := false,
    flagIn := some true, userInput := some "q", crewError := false,
    tempExists := true, removeError := false }

/-! ## Theorems -/

/-- C1: for every authenticated user with a non-None role list and every
app in the configured app list, the app is accessible iff "admin" is among
the user's roles or the role list meets the app's `access_privilege_role`
list; in particular a non-admin user with roles disjoint from the app's
allowed roles is denied the app. -/
theorem C1_role_filter (user_role : List String) (apps : List App) (app : App)
    (hmem : app ∈ apps) :
    (app ∈ accessible_apps user_role apps ↔
      "admin" ∈ user_role ∨ ∃ r ∈ user_role, r ∈ app.access_privilege_role) ∧
    ("admin" ∉ user_role → (∀ r ∈ user_role, r ∉ app.access_privilege_role) →
      app ∉ accessible_apps user_role apps) := by
  have hiff : app ∈ accessible_apps user_role apps ↔
      "admin" ∈ user_role ∨ ∃ r ∈ user_role, r ∈ app.access_privilege_role := by
    unfold accessible_apps
    by_cases hadm : "admin" ∈ user_role
    · simp [hadm, hmem]
    · rw [if_neg hadm, List.mem_filter]
      simp only [decide_eq_true_eq, List.length_pos_iff_exists_mem,
        List.inter, List.mem_filter, List.elem_iff]
      constructor
      · rintro ⟨-, a, ha, hb⟩
        exact Or.inr ⟨a, ha, hb⟩
      · rintro (h | ⟨r, hr, hp⟩)
        · exact absurd h hadm
        · exact ⟨hmem, r, hr, hp⟩
  refine ⟨hiff, fun hadm hdisj hacc => ?_⟩
  rcases hiff.mp hacc with h | ⟨r, hr, hp⟩
  · exact hadm h
  · exact hdisj r hr hp

/-- Witness for C1 at a concrete input: the first configured app, for a
user with the single role "user". -/
theorem C1_role_filter_witness :
    ({ name := "Personal ChatBot", description := "Personal ChatBot",
       page := "home.py", access_privilege_role := ["user"] } : App) ∈ APPS ∧
    (({ name := "Personal ChatBot", description := "Personal ChatBot",
        page := "home.py", access_privilege_role := ["user"] } : App) ∈
        accessible_apps ["user"] APPS ↔
      "admin" ∈ (["user"] : List String) ∨
        ∃ r ∈ (["user"] : List String),
          r ∈ ({ name := "Personal ChatBot", description := "Personal ChatBot",
                 page := "home.py",
                 access_privilege_role := ["user"] } : App).access_privilege_role) :=
  ⟨by decide, (C1_role_filter ["user"] APPS _ (by decide)).1⟩

/-- C2 as stated is false: an admin's accessible apps are the full
configured app list, but the navigation mapping contains only the fixed
`home1.py` page (the apps-derived group is commented out in `login.py`),
so the page `home.py` of a configured app is not navigable even by an
admin. -/
theorem C2_admin_counterexample :
    ¬ (accessible_apps ["admin"] APPS = APPS ∧
        ∀ app ∈ APPS, app.page ∈ navPages) := by
  decide

/-- C2 amended: for a user whose role list contains "admin", the accessible
app list is the full configured app list; the navigation, however, is the
fixed single page `home1.py` for every authenticated user, admin
included. -/
theorem C2_admin_all_apps (roles : List String) (h : "admin" ∈ roles) :
    accessible_apps roles APPS = APPS ∧ navPages = ["home1.py"] := by
  unfold accessible_apps
  rw [if_pos h]
  exact ⟨rfl, rfl⟩

/-- Witness for C2 amended at the concrete role list `["admin"]`. -/
theorem C2_admin_all_apps_witness :
    accessible_apps ["admin"] APPS = APPS ∧ navPages = ["home1.py"] :=
  C2_admin_all_apps ["admin"] (by decide)

/-- C3: on each page, when the expected API key environment variable is
unset or empty, the run shows a user-facing error and halts; its trace is
exactly the error message and the stop, so no call of any kind — file
processing, model initialization, index build, retrieval, or agent
execution — is attempted. -/
theorem C3_missing_key_halts (inp : HomeInput) (inp1 : Home1Input)
    (h : pyTruthy inp.apiKey = false) (h1 : pyTruthy inp1.apiKey = false) :
    ((homeScript inp).trace = [Ev.errorMsg gemKeyMissingMsg, Ev.stop] ∧
      (homeScript inp).outcome = Outcome.stopped ∧
      ∀ e ∈ (homeScript inp).trace, e.isCall = false) ∧
    ((home1Script inp1).trace = [Ev.errorMsg openaiKeyMissingMsg, Ev.stop] ∧
      (home1Script inp1).outcome = Outcome.stopped ∧
      ∀ e ∈ (home1Script inp1).trace, e.isCall = false) := by
  refine ⟨?_, ?_⟩ <;>
    simp [homeScript, home1Script, h, h1, Ev.isCall]

/-- Witness for C3: both pages run with the key variable unset (home) or
empty (home1), a PDF uploaded and a question asked. -/
theorem C3_missing_key_halts_witness :
    ((homeScript homeNoKeyInput).trace =
        [Ev.errorMsg gemKeyMissingMsg, Ev.stop] ∧
      (homeScript homeNoKeyInput).outcome = Outcome.stopped ∧
      ∀ e ∈ (homeScript homeNoKeyInput).trace, e.isCall = false) ∧
    ((home1Script home1EmptyKeyInput).trace =
        [Ev.errorMsg openaiKeyMissingMsg, Ev.stop] ∧
      (home1Script home1EmptyKeyInput).outcome = Outcome.stopped ∧
      ∀ e ∈ (home1Script home1EmptyKeyInput).trace, e.isCall = false) :=
  C3_missing_key_halts homeNoKeyInput home1EmptyKeyInput rfl rfl

/-- The `home.py` try-body never reads the cleanup oracles. -/
theorem homeBody_indep (ak un : Option String) (ie : InitExc) (rie rae : Bool)
    (fi : Option Bool) (ui : Option String) (ce te re te' re' : Bool)
    (path : String) :
    homeBody ⟨ak, un, ie, rie, rae, fi, ui, ce, te, re⟩ path =
      homeBody ⟨ak, un, ie, rie, rae, fi, ui, ce, te', re'⟩ path := rfl

/-- The `home1.py` try-body never reads the cleanup oracles. -/
theorem home1Body_indep (ak un : Option String) (td : String)
    (ple ee fe rie : Bool) (ui : Option String) (rte ce te re te' re' : Bool)
    (path : String) :
    home1Body ⟨ak, un, td, ple, ee, fe, rie, ui, rte, ce, te, re⟩ path =
      home1Body ⟨ak, un, td, ple, ee, fe, rie, ui, rte, ce, te', re'⟩ path := rfl

/-- C4: for every request with an uploaded PDF, on every exit path of the
processing block — normal, `st.stop`, or an uncaught exception — the
`finally` block attempts to delete the temporary file whenever it exists,
and a failure of the delete itself never changes how the run exits. -/
theorem C4_temp_file_cleanup (inp : HomeInput) (inp1 : Home1Input)
    (name name1 : String)
    (hk : pyTruthy inp.apiKey = true) (hup : inp.uploadedName = some name)
    (hk1 : pyTruthy inp1.apiKey = true) (hup1 : inp1.uploadedName = some name1) :
    (inp.tempExists = true →
      Ev.removeAttempt (homeTempPath name) ∈ (homeScript inp).trace) ∧
    (inp1.tempExists = true →
      Ev.removeAttempt (home1TempPath inp1.tempDir name1) ∈
        (home1Script inp1).trace) ∧
    (∀ b c, (homeScript { inp with tempExists := b, removeError := c }).outcome =
      (homeScript inp).outcome) ∧
    (∀ b c, (home1Script { inp1 with tempExists := b, removeError := c }).outcome =
      (home1Script inp1).outcome) := by
  refine ⟨?_, ?_, ?_, ?_⟩
  · intro hte
    cases hre : inp.removeError <;>
      simp [homeScript, hk, hup, cleanupEvents, hte, hre]
  · intro hte
    cases hre : inp1.removeError <;>
      simp [home1Script, hk1, hup1, cleanupEvents, hte, hre]
  · intro b c
    obtain ⟨ak, un, ie, rie, rae, fi, ui, ce, te, re⟩ := inp
    cases un with
    | none => rfl
    | some n => simp [homeScript, hk, homeBody_indep ak _ ie rie rae fi ui ce b c te re]
  · intro b c
    obtain ⟨ak, un, td, ple, ee, fe, rie, ui, rte, ce, te, re⟩ := inp1
    cases un with
    | none => rfl
    | some n =>
        simp [home1Script, hk1,
          home1Body_indep ak _ td ple ee fe rie ui rte ce b c te re]

/-- Witness for C4: both pages on an exceptional exit path, with the temp
file present and the delete itself raising. -/
theorem C4_temp_file_cleanup_witness :
    (homeRaisedInput.tempExists = true →
      Ev.removeAttempt (homeTempPath "doc.pdf") ∈
        (homeScript homeRaisedInput).trace) ∧
    (home1RaisedInput.tempExists = true →
      Ev.removeAttempt (home1TempPath home1RaisedInput.tempDir "doc.pdf") ∈
        (home1Script home1RaisedInput).trace) ∧
    (∀ b c,
      (homeScript { homeRaisedInput with
                      tempExists := b, removeError := c }).outcome =
        (homeScript homeRaisedInput).outcome) ∧
    (∀ b c,
      (home1Script { home1RaisedInput with
                       tempExists := b, removeError := c }).outcome =
        (home1Script home1RaisedInput).outcome) :=
  C4_temp_file_cleanup homeRaisedInput home1RaisedInput "doc.pdf" "doc.pdf"
    rfl rfl rfl rfl

/-- The cleanup block contributes nothing to a count of body events. -/
theorem countP_cleanupEvents (p : Ev → Bool)
    (hra : ∀ s, p (Ev.removeAttempt s) = false)
    (hrm : ∀ s, p (Ev.removed s) = false) (te re : Bool) (path : String) :
    (cleanupEvents te re path).countP p = 0 := by
  cases te <;> cases re <;>
    simp [cleanupEvents, List.countP_cons, List.countP_nil, hra, hrm]

/-- Each external call of `home.py` is attempted at most once per run. -/
theorem home_countP_le_one (inp : HomeInput) (name : String)
    (hk : pyTruthy inp.apiKey = true) (hup : inp.uploadedName = some name) :
    (homeScript inp).trace.countP isEmbedInit ≤ 1 ∧
    (homeScript inp).trace.countP isRagAdd ≤ 1 ∧
    (homeScript inp).trace.countP isAgentRun ≤ 1 := by
  cases hie : inp.initErr <;> cases hrie : inp.ragInitError <;>
    cases hfl : inp.flagIn.getD false <;> cases hrae : inp.ragAddError <;>
    cases hui : pyTruthy inp.userInput <;> cases hce : inp.crewError <;>
    simp [homeScript, homeBody, homeChat, hk, hup, hie, hrie, hfl, hrae, hui,
      hce, List.countP_append, List.countP_cons, countP_cleanupEvents,
      isEmbedInit, isRagAdd, isAgentRun]

/-- Each external call of `home1.py` is attempted at most once per run. -/
theorem home1_countP_le_one (inp1 : Home1Input) (name1 : String)
    (hk1 : pyTruthy inp1.apiKey = true) (hup1 : inp1.uploadedName = some name1) :
    (home1Script inp1).trace.countP isPdfLoad ≤ 1 ∧
    (home1Script inp1).trace.countP isEmbedInit ≤ 1 ∧
    (home1Script inp1).trace.countP isFaissBuild ≤ 1 ∧
    (home1Script inp1).trace.countP isRetrieve ≤ 1 ∧
    (home1Script inp1).trace.countP isAgentRun ≤ 1 := by
  cases hple : inp1.pdfLoadError <;> cases hee : inp1.embedError <;>
    cases hfe : inp1.faissError <;> cases hrie : inp1.ragInitError <;>
    cases hui : pyTruthy inp1.userInput <;> cases hrte : inp1.retrieveError <;>
    cases hce : inp1.crewError <;>
    simp [home1Script, home1Body, home1Chat, hk1, hup1, hple, hee, hfe, hrie,
      hui, hrte, hce, List.countP_append, List.countP_cons,
      countP_cleanupEvents, isPdfLoad, isEmbedInit, isFaissBuild, isRetrieve,
      isAgentRun]

/-- C5 as stated is false: on the Gemini-backed page the embedding/LLM
initialization is guarded only against `DefaultCredentialsError`, so an
exception of any other type raised there propagates out of the script
uncaught — no user-facing error or warning message is produced. -/
theorem C5_counterexample :
    (homeScript homeUncaughtInput).outcome = Outcome.raised ∧
    (∀ m, Ev.errorMsg m ∉ (homeScript homeUncaughtInput).trace) ∧
    (∀ m, Ev.warnMsg m ∉ (homeScript homeUncaughtInput).trace) := by
  refine ⟨rfl, ?_, ?_⟩ <;> intro m <;>
    simp [homeScript, homeUncaughtInput, homeBody, cleanupEvents, pyTruthy]

/-- C5 amended: every error raised at the listed external call sites is
caught and surfaced as a user-facing message and no failed call is
retried, with one exception: the Gemini page's embedding/LLM
initialization catches only `DefaultCredentialsError`, so any other
exception type there propagates uncaught.  (On the OpenAI page the only
uncaught spot is the PDF load/chunking step, which is not one of the
listed call sites.) -/
theorem C5_errors_caught (inp : HomeInput) (inp1 : Home1Input)
    (name name1 : String)
    (hk : pyTruthy inp.apiKey = true) (hup : inp.uploadedName = some name)
    (hk1 : pyTruthy inp1.apiKey = true) (hup1 : inp1.uploadedName = some name1) :
    ((homeScript inp).outcome = Outcome.raised ↔ inp.initErr = InitExc.other) ∧
    ((home1Script inp1).outcome = Outcome.raised ↔ inp1.pdfLoadError = true) ∧
    (inp.initErr = InitExc.creds → Ev.errorMsg adcMsg ∈ (homeScript inp).trace) ∧
    (inp.initErr = InitExc.ok → inp.ragInitError = true →
      Ev.errorMsg ragInitFailedMsg ∈ (homeScript inp).trace) ∧
    (inp.initErr = InitExc.ok → inp.ragInitError = false →
      inp.flagIn.getD false = false → inp.ragAddError = true →
      Ev.errorMsg loadPdfErrMsg ∈ (homeScript inp).trace) ∧
    (inp.initErr = InitExc.ok → inp.ragInitError = false →
      inp.ragAddError = false → pyTruthy inp.userInput = true →
      inp.crewError = true →
      Ev.errorMsg questionErrMsg ∈ (homeScript inp).trace) ∧
    (inp1.pdfLoadError = false → inp1.embedError = true →
      Ev.errorMsg embedInitFailedMsg ∈ (home1Script inp1).trace) ∧
    (inp1.pdfLoadError = false → inp1.embedError = false →
      inp1.faissError = true →
      Ev.errorMsg faissFailedMsg ∈ (home1Script inp1).trace) ∧
    (inp1.pdfLoadError = false → inp1.embedError = false →
      inp1.faissError = false → inp1.ragInitError = true →
      Ev.warnMsg ragToolWarnMsg ∈ (home1Script inp1).trace) ∧
    (inp1.pdfLoadError = false → inp1.embedError = false →
      inp1.faissError = false → pyTruthy inp1.userInput = true →
      inp1.retrieveError = true →
      Ev.errorMsg question1ErrMsg ∈ (home1Script inp1).trace) ∧
    (inp1.pdfLoadError = false → inp1.embedError = false →
      inp1.faissError = false → pyTruthy inp1.userInput = true →
      inp1.retrieveError = false → inp1.crewError = true →
      Ev.errorMsg question1ErrMsg ∈ (home1Script inp1).trace) ∧
    (homeScript inp).trace.countP isEmbedInit ≤ 1 ∧
    (homeScript inp).trace.countP isRagAdd ≤ 1 ∧
    (homeScript inp).trace.countP isAgentRun ≤ 1 ∧
    (home1Script inp1).trace.countP isPdfLoad ≤ 1 ∧
    (home1Script inp1).trace.countP isEmbedInit ≤ 1 ∧
    (home1Script inp1).trace.countP isFaissBuild ≤ 1 ∧
    (home1Script inp1).trace.countP isRetrieve ≤ 1 ∧
    (home1Script inp1).trace.countP isAgentRun ≤ 1 := by
  refine ⟨?_, ?_, fun h1 => ?_, fun h1 h2 => ?_, fun h1 h2 h3 h4 => ?_,
    fun h1 h2 h3 h4 h5 => ?_, fun g1 g2 => ?_, fun g1 g2 g3 => ?_,
    fun g1 g2 g3 g4 => ?_, fun g1 g2 g3 g4 g5 => ?_,
    fun g1 g2 g3 g4 g5 g6 => ?_, ?_, ?_, ?_, ?_, ?_, ?_, ?_, ?_⟩
  · cases hie : inp.initErr <;> cases hrie : inp.ragInitError <;>
      cases hfl : inp.flagIn.getD false <;> cases hrae : inp.ragAddError <;>
      cases hui : pyTruthy inp.userInput <;> cases hce : inp.crewError <;>
      simp [homeScript, homeBody, homeChat, hk, hup, hie, hrie, hfl, hrae,
        hui, hce]
  · cases hple : inp1.pdfLoadError <;> cases hee : inp1.embedError <;>
      cases hfe : inp1.faissError <;> cases hrie : inp1.ragInitError <;>
      cases hui : pyTruthy inp1.userInput <;> cases hrte : inp1.retrieveError <;>
      cases hce : inp1.crewError <;>
      simp [home1Script, home1Body, home1Chat, hk1, hup1, hple, hee, hfe,
        hrie, hui, hrte, hce]
  · simp [homeScript, homeBody, hk, hup, h1]
  · simp [homeScript, homeBody, hk, hup, h1, h2]
  · simp [homeScript, homeBody, hk, hup, h1, h2, h3, h4]
  · cases hfl : inp.flagIn.getD false <;>
      simp [homeScript, homeBody, homeChat, hk, hup, h1, h2, h3, h4, h5, hfl]
  · simp [home1Script, home1Body, hk1, hup1, g1, g2]
  · simp [home1Script, home1Body, hk1, hup1, g1, g2, g3]
  · cases hui : pyTruthy inp1.userInput <;>
      cases hrte : inp1.retrieveError <;> cases hce : inp1.crewError <;>
      simp [home1Script, home1Body, home1Chat, hk1, hup1, g1, g2, g3, g4,
        hui, hrte, hce]
  · cases hrie : inp1.ragInitError <;>
      simp [home1Script, home1Body, home1Chat, hk1, hup1, g1, g2, g3, g4,
        g5, hrie]
  · cases hrie : inp1.ragInitError <;>
      simp [home1Script, home1Body, home1Chat, hk1, hup1, g1, g2, g3, g4,
        g5, g6, hrie]
  · exact (home_countP_le_one inp name hk hup).1
  · exact (home_countP_le_one inp name hk hup).2.1
  · exact (home_countP_le_one inp name hk hup).2.2
  · exact (home1_countP_le_one inp1 name1 hk1 hup1).1
  · exact (home1_countP_le_one inp1 name1 hk1 hup1).2.1
  · exact (home1_countP_le_one inp1 name1 hk1 hup1).2.2.1
  · exact (home1_countP_le_one inp1 name1 hk1 hup1).2.2.2.1
  · exact (home1_countP_le_one inp1 name1 hk1 hup1).2.2.2.2

/-- Witness for C5 amended: a Gemini-page run whose RagTool init fails and
an OpenAI-page run whose retrieval fails; both produce user-facing error
messages. -/
theorem C5_errors_caught_witness :
    Ev.errorMsg ragInitFailedMsg ∈ (homeScript homeAllErrInput).trace ∧
    Ev.errorMsg question1ErrMsg ∈ (home1Script home1RetrieveErrInput).trace := by
  obtain ⟨-, -, -, h4, -, -, -, -, -, h10, -⟩ :=
    C5_errors_caught homeAllErrInput home1RetrieveErrInput "doc.pdf" "doc.pdf"
      rfl rfl rfl rfl
  exact ⟨h4 rfl rfl, h10 rfl rfl rfl rfl rfl⟩

/-- C6: on the OpenAI-backed page, the task description handed to the
agent contains the context block built from the top-ranked retrieved
chunks, and it appears before the user's question text. -/
theorem C6_context_before_question (retrieved : List Doc) (user_input : String) :
    ∃ pre mid post,
      task_description (topDocs retrieved) user_input =
        pre ++ context_text (topDocs retrieved) ++ mid ++ user_input ++ post ∧
      pre = promptHeader ++ "CONTEXT:\n" ∧ mid = "\n\nQUESTION:\n" ∧
      post = "\n\n" ++ promptFooter := by
  refine ⟨promptHeader ++ "CONTEXT:\n", "\n\nQUESTION:\n", "\n\n" ++ promptFooter,
    ?_, rfl, rfl, rfl⟩
  simp [task_description, String.append_assoc]

/-- If a character list has no reported before-last-space prefix, it has
no space at all. -/
theorem beforeLastSpace?_none {l : List Char} (h : beforeLastSpace? l = none) :
    ' ' ∉ l := by
  induction l with
  | nil => simp
  | cons c cs ih =>
    unfold beforeLastSpace? at h
    rcases hcs : beforeLastSpace? cs with _ | q
    · rw [hcs] at h
      by_cases hc : c = ' '
      · simp [hc] at h
      · simp [hc] at h ⊢
        exact ⟨fun hh => hc hh.symm, ih hcs⟩
    · rw [hcs] at h
      simp at h

/-- The before-last-space prefix is exactly what precedes the last space:
the remainder after that space holds no further space. -/
theorem beforeLastSpace?_some {l p : List Char}
    (h : beforeLastSpace? l = some p) :
    ∃ rest, l = p ++ ' ' :: rest ∧ ' ' ∉ rest := by
  induction l generalizing p with
  | nil => simp [beforeLastSpace?] at h
  | cons c cs ih =>
    unfold beforeLastSpace? at h
    rcases hcs : beforeLastSpace? cs with _ | q
    · rw [hcs] at h
      by_cases hc : c = ' '
      · simp [hc] at h
        subst h
        exact ⟨cs, by simp [hc], beforeLastSpace?_none hcs⟩
      · simp [hc] at h
    · rw [hcs] at h
      simp at h
      obtain ⟨rest, hrest, hnr⟩ := ih hcs
      subst h
      exact ⟨rest, by simp [hrest], hnr⟩

/-- A list holding a space has a before-last-space prefix. -/
theorem beforeLastSpace?_isSome {l : List Char} (h : ' ' ∈ l) :
    (beforeLastSpace? l).isSome := by
  induction l with
  | nil => simp at h
  | cons c cs ih =>
    unfold beforeLastSpace?
    rcases hcs : beforeLastSpace? cs with _ | q
    · rcases List.mem_cons.mp h with hc | hcs'
      · simp [hc.symm]
      · have := ih hcs'
        rw [hcs] at this
        simp at this
    · simp

/-- `rsplit(" ", 1)[0]` never lengthens a string. -/
theorem rsplitHead_length_le (l : List Char) :
    (rsplitHead l).length ≤ l.length := by
  unfold rsplitHead
  rcases h : beforeLastSpace? l with _ | p
  · simp
  · obtain ⟨rest, hrest, -⟩ := beforeLastSpace?_some h
    simp [hrest]

/-- Every snippet placed in a context part has at most 1001 characters. -/
theorem snippetOf_length_le (d : Doc) : (snippetOf d).length ≤ 1001 := by
  unfold snippetOf
  by_cases h : 1000 < (pyStrip (replaceNl d.page_content.data)).length
  · rw [if_pos h]
    have h1 :=
      rsplitHead_length_le ((pyStrip (replaceNl d.page_content.data)).take 1000)
    have h2 :
        ((pyStrip (replaceNl d.page_content.data)).take 1000).length ≤ 1000 := by
      simp [List.length_take]
    simp only [String.length_append]
    have h3 :
        (String.mk (rsplitHead
            ((pyStrip (replaceNl d.page_content.data)).take 1000))).length =
          (rsplitHead
            ((pyStrip (replaceNl d.page_content.data)).take 1000)).length := rfl
    have h4 : ("…" : String).length = 1 := rfl
    omega
  · rw [if_neg h]
    have h3 : (String.mk (pyStrip (replaceNl d.page_content.data))).length =
        (pyStrip (replaceNl d.page_content.data)).length := rfl
    omega

/-- C9: the context block holds at most 5 chunks; every included snippet
has at most 1001 characters; and a snippet longer than 1000 characters is
cut back to just before the last space within its first 1000 characters
and suffixed with an ellipsis. -/
theorem C9_context_size_bounds (retrieved : List Doc) :
    (contextParts (topDocs retrieved)).length ≤ 5 ∧
    (∀ d : Doc, (snippetOf d).length ≤ 1001) ∧
    (∀ d : Doc, 1000 < (pyStrip (replaceNl d.page_content.data)).length →
      ' ' ∈ (pyStrip (replaceNl d.page_content.data)).take 1000 →
      ∃ pre rest,
        (pyStrip (replaceNl d.page_content.data)).take 1000 =
          pre ++ ' ' :: rest ∧
        ' ' ∉ rest ∧ snippetOf d = String.mk pre ++ "…") := by
  refine ⟨?_, fun d => snippetOf_length_le d, fun d hlen hsp => ?_⟩
  · simp [contextParts, topDocs, List.length_take]
  · have hs := beforeLastSpace?_isSome hsp
    rcases hb : beforeLastSpace?
        ((pyStrip (replaceNl d.page_content.data)).take 1000) with _ | p
    · rw [hb] at hs
      simp at hs
    · obtain ⟨rest, hrest, hnr⟩ := beforeLastSpace?_some hb
      refine ⟨p, rest, hrest, hnr, ?_⟩
      unfold snippetOf
      rw [if_pos hlen]
      unfold rsplitHead
      rw [hb]
      rfl

set_option maxRecDepth 10000 in
/-- Witness for C9 at a concrete 1201-character chunk with a space at
position 600: the snippet is the 600 `a`s followed by the ellipsis. -/
theorem C9_context_size_bounds_witness :
    1000 < (pyStrip (replaceNl longDoc.page_content.data)).length ∧
    ' ' ∈ (pyStrip (replaceNl longDoc.page_content.data)).take 1000 ∧
    ∃ pre rest,
      (pyStrip (replaceNl longDoc.page_content.data)).take 1000 =
        pre ++ ' ' :: rest ∧
      ' ' ∉ rest ∧ snippetOf longDoc = String.mk pre ++ "…" :=
  ⟨by decide, by decide,
    (C9_context_size_bounds [longDoc]).2.2 longDoc (by decide) (by decide)⟩

/-- C10 as stated is false: a retrieved chunk whose cleaned snippet is
empty still contributes its source label, so the context block for a
single empty chunk is "[Source: chunk-1]", not the placeholder. -/
theorem C10_counterexample :
    context_text [{ page_content := "" }] ≠ noRelevantTextMsg ∧
    context_text [{ page_content := "" }] = "[Source: chunk-1]" := by
  constructor <;> decide

/-- C10 amended: when retrieval yields no chunks the context block is
exactly the placeholder; a chunk with an empty cleaned snippet instead
contributes its source label; in every case the context section of the
prompt is non-empty. -/
theorem C10_empty_context_placeholder (retrieved : List Doc) :
    (topDocs retrieved = [] →
      context_text (topDocs retrieved) = noRelevantTextMsg) ∧
    context_text (topDocs retrieved) ≠ "" := by
  constructor
  · intro h
    rw [h]
    decide
  · by_cases h : String.mk
        (pyStrip (joinParts (contextParts (topDocs retrieved))).data) = ""
    · simp [context_text, h]
      decide
    · simp [context_text, h]

/-- Witness for C10 amended at the empty retrieval result. -/
theorem C10_empty_context_placeholder_witness :
    context_text (topDocs []) = noRelevantTextMsg ∧
    context_text (topDocs []) ≠ "" :=
  ⟨(C10_empty_context_placeholder []).1 rfl,
   (C10_empty_context_placeholder []).2⟩

/-- The cleanup block never holds a `ragAdd` event. -/
theorem ragAdd_not_mem_cleanup (p : String) (te re : Bool) (q : String) :
    Ev.ragAdd p ∉ cleanupEvents te re q := by
  cases te <;> cases re <;> simp [cleanupEvents]

/-- The cleanup block never holds the flag-assignment event. -/
theorem setFlag_not_mem_cleanup (te re : Bool) (q : String) :
    Ev.setInitFlag ∉ cleanupEvents te re q := by
  cases te <;> cases re <;> simp [cleanupEvents]

set_option maxHeartbeats 2000000 in
/-- C7: with an upload present, the first event of either page's run is
the write of the upload's bytes to the temp path, before any processing;
and every delete attempted during cleanup targets that same path. -/
theorem C7_temp_write_first (inp : HomeInput) (inp1 : Home1Input)
    (name name1 : String)
    (hk : pyTruthy inp.apiKey = true) (hup : inp.uploadedName = some name)
    (hk1 : pyTruthy inp1.apiKey = true) (hup1 : inp1.uploadedName = some name1) :
    (∃ rest, (homeScript inp).trace = Ev.fileWrite (homeTempPath name) :: rest) ∧
    (∀ p, Ev.removeAttempt p ∈ (homeScript inp).trace → p = homeTempPath name) ∧
    (∃ rest, (home1Script inp1).trace =
      Ev.fileWrite (home1TempPath inp1.tempDir name1) :: rest) ∧
    (∀ p, Ev.removeAttempt p ∈ (home1Script inp1).trace →
      p = home1TempPath inp1.tempDir name1) := by
  refine ⟨?_, ?_, ?_, ?_⟩
  · cases hie : inp.initErr <;> cases hrie : inp.ragInitError <;>
      cases hfl : inp.flagIn.getD false <;> cases hrae : inp.ragAddError <;>
      cases hui : pyTruthy inp.userInput <;> cases hce : inp.crewError <;>
      simp [homeScript, homeBody, homeChat, hk, hup, hie, hrie, hfl, hrae,
        hui, hce]
  · intro p
    cases hie : inp.initErr <;> cases hrie : inp.ragInitError <;>
      cases hfl : inp.flagIn.getD false <;> cases hrae : inp.ragAddError <;>
      cases hui : pyTruthy inp.userInput <;> cases hce : inp.crewError <;>
      cases hte : inp.tempExists <;> cases hre : inp.removeError <;>
      simp [homeScript, homeBody, homeChat, cleanupEvents, hk, hup, hie,
        hrie, hfl, hrae, hui, hce, hte, hre]
  · cases hple : inp1.pdfLoadError <;> cases hee : inp1.embedError <;>
      cases hfe : inp1.faissError <;> cases hrie : inp1.ragInitError <;>
      cases hui : pyTruthy inp1.userInput <;> cases hrte : inp1.retrieveError <;>
      cases hce : inp1.crewError <;>
      simp [home1Script, home1Body, home1Chat, hk1, hup1, hple, hee, hfe,
        hrie, hui, hrte, hce]
  · intro p
    cases hple : inp1.pdfLoadError <;> cases hee : inp1.embedError <;>
      cases hfe : inp1.faissError <;> cases hrie : inp1.ragInitError <;>
      cases hui : pyTruthy inp1.userInput <;> cases hrte : inp1.retrieveError <;>
      cases hce : inp1.crewError <;>
      cases hte : inp1.tempExists <;> cases hre : inp1.removeError <;>
      simp [home1Script, home1Body, home1Chat, cleanupEvents, hk1, hup1,
        hple, hee, hfe, hrie, hui, hrte, hce, hte, hre]

/-- Witness for C7: both pages on a fully successful run. -/
theorem C7_temp_write_first_witness :
    (∃ rest, (homeScript homeOkInput).trace =
      Ev.fileWrite (homeTempPath "doc.pdf") :: rest) ∧
    (∀ p, Ev.removeAttempt p ∈ (homeScript homeOkInput).trace →
      p = homeTempPath "doc.pdf") ∧
    (∃ rest, (home1Script home1OkInput).trace =
      Ev.fileWrite (home1TempPath home1OkInput.tempDir "doc.pdf") :: rest) ∧
    (∀ p, Ev.removeAttempt p ∈ (home1Script home1OkInput).trace →
      p = home1TempPath home1OkInput.tempDir "doc.pdf") :=
  C7_temp_write_first homeOkInput home1OkInput "doc.pdf" "doc.pdf"
    rfl rfl rfl rfl

set_option maxHeartbeats 2000000 in
/-- Per-run facts behind C8: `rag_tool.add` happens only when the session
flag is `False`; the flag assignment event implies the flag left behind is
`True`; the flag is assigned at most once per run. -/
theorem homeScript_run_facts (inp : HomeInput) :
    (∀ p, Ev.ragAdd p ∈ (homeScript inp).trace →
      inp.flagIn.getD false = false) ∧
    (Ev.setInitFlag ∈ (homeScript inp).trace →
      (homeScript inp).flagOut = some true) ∧
    (homeScript inp).trace.countP isSetFlag ≤ 1 ∧
    (0 < (homeScript inp).trace.countP isSetFlag →
      (homeScript inp).flagOut = some true) := by
  cases hk : pyTruthy inp.apiKey <;>
    rcases hun : inp.uploadedName with _ | nm <;>
    cases hie : inp.initErr <;> cases hrie : inp.ragInitError <;>
    cases hfl : inp.flagIn.getD false <;> cases hrae : inp.ragAddError <;>
    cases hui : pyTruthy inp.userInput <;> cases hce : inp.crewError <;>
    simp [homeScript, homeBody, homeChat, hk, hun, hie, hrie, hfl, hrae,
      hui, hce, List.countP_append, List.countP_cons, countP_cleanupEvents,
      isSetFlag, ragAdd_not_mem_cleanup, setFlag_not_mem_cleanup]

set_option maxHeartbeats 1000000 in
/-- A rerun entered with the flag `True` never indexes and leaves the flag
`True`. -/
theorem homeScript_flag_true (inp : HomeInput) (h : inp.flagIn = some true) :
    (∀ p, Ev.ragAdd p ∉ (homeScript inp).trace) ∧
    Ev.setInitFlag ∉ (homeScript inp).trace ∧
    (homeScript inp).flagOut = some true := by
  cases hk : pyTruthy inp.apiKey <;>
    rcases hun : inp.uploadedName with _ | nm <;>
    cases hie : inp.initErr <;> cases hrie : inp.ragInitError <;>
    cases hui : pyTruthy inp.userInput <;> cases hce : inp.crewError <;>
    simp [homeScript, homeBody, homeChat, hk, hun, hie, hrie, hui, hce, h,
      ragAdd_not_mem_cleanup, setFlag_not_mem_cleanup]

/-- A trace without `ragAdd` events has `ragAdd` count zero. -/
theorem countP_isRagAdd_eq_zero {t : List Ev}
    (h : ∀ p, Ev.ragAdd p ∉ t) : t.countP isRagAdd = 0 := by
  rw [List.countP_eq_zero]
  intro a ha hpa
  cases a <;> simp [isRagAdd] at hpa
  exact h _ ha

/-- A trace without the flag-assignment event has `setInitFlag` count
zero. -/
theorem countP_isSetFlag_eq_zero {t : List Ev}
    (h : Ev.setInitFlag ∉ t) : t.countP isSetFlag = 0 := by
  rw [List.countP_eq_zero]
  intro a ha hpa
  cases a <;> simp [isSetFlag] at hpa
  exact h ha

/-- A session whose flag is already `True` never indexes again. -/
theorem runHomeSession_true_ragAdd (rs : List HomeInput) :
    (runHomeSession (some true) rs).countP isRagAdd = 0 := by
  induction rs with
  | nil => rfl
  | cons r rs ih =>
    have hf := homeScript_flag_true { r with flagIn := some true } rfl
    simp only [runHomeSession, List.countP_append]
    rw [countP_isRagAdd_eq_zero hf.1, hf.2.2, ih]

/-- A session whose flag is already `True` never reassigns the flag. -/
theorem runHomeSession_true_setFlag (rs : List HomeInput) :
    (runHomeSession (some true) rs).countP isSetFlag = 0 := by
  induction rs with
  | nil => rfl
  | cons r rs ih =>
    have hf := homeScript_flag_true { r with flagIn := some true } rfl
    simp only [runHomeSession, List.countP_append]
    rw [countP_isSetFlag_eq_zero hf.2.1, hf.2.2, ih]

/-- C8: on the Gemini-backed page, `rag_tool.add` runs only when the
session flag is `False`; the flag is set to `True` immediately after a
successful add; a rerun entered with the flag `True` never re-indexes;
and across a whole session the flag is assigned at most once, with no
index event at all once the flag is `True`. -/
theorem C8_index_at_most_once (inp : HomeInput) (rs : List HomeInput) :
    (∀ p, Ev.ragAdd p ∈ (homeScript inp).trace →
      inp.flagIn.getD false = false) ∧
    (Ev.setInitFlag ∈ (homeScript inp).trace →
      (homeScript inp).flagOut = some true) ∧
    (inp.flagIn = some true →
      (∀ p, Ev.ragAdd p ∉ (homeScript inp).trace) ∧
      (homeScript inp).flagOut = some true) ∧
    ((runHomeSession (some true) rs).countP isRagAdd = 0) ∧
    (∀ f, (runHomeSession f rs).countP isSetFlag ≤ 1) := by
  refine ⟨(homeScript_run_facts inp).1, (homeScript_run_facts inp).2.1,
    fun h => ⟨(homeScript_flag_true inp h).1, (homeScript_flag_true inp h).2.2⟩,
    runHomeSession_true_ragAdd rs, ?_⟩
  induction rs with
  | nil =>
    intro f
    simp [runHomeSession]
  | cons r rs ih =>
    intro f
    simp only [runHomeSession, List.countP_append]
    rcases Nat.eq_zero_or_pos
        ((homeScript { r with flagIn := f }).trace.countP isSetFlag) with hz | hp
    · rw [hz]
      simpa using ih (homeScript { r with flagIn := f }).flagOut
    · have hfo := (homeScript_run_facts { r with flagIn := f }).2.2.2 hp
      have h1 := (homeScript_run_facts { r with flagIn := f }).2.2.1
      rw [hfo, runHomeSession_true_setFlag rs]
      omega

/-- Witness for C8: a rerun entered with the flag already `True` performs
no `rag_tool.add` and leaves the flag `True`. -/
theorem C8_index_at_most_once_witness :
    (∀ p, Ev.ragAdd p ∉ (homeScript homeFlagTrueInput).trace) ∧
    (homeScript homeFlagTrueInput).flagOut = some true :=
  (C8_index_at_most_once homeFlagTrueInput []).2.2.1 rfl

end Chatbot
